import Mathlib

/-
Verification of the kosync/OPDS/WebDAV compatibility layer of the
KOReader-companion book-library server (FastAPI + SQLAlchemy).

The Python sources are shallowly embedded:
  * database tables become lists of records, and the SQLAlchemy query
    `select(...).where(...)` + `scalar_one_or_none()` becomes a filter over
    that list (`scalarOneOrNone` returns `none` exactly when the query would
    raise `MultipleResultsFound`);
  * session mutation + `commit()` becomes functional record update; a handler
    returns the HTTP outcome together with the persisted state after the
    request (`rollback()` therefore returns the original state);
  * `datetime.utcnow()` is passed in explicitly as a `now : Nat` tick value;
  * Python `float` form values are modelled as `Rat` (the claims under test
    only ever store and compare them); the `float(str)` conversion performed
    by the pydantic validator is modelled by an `Option Rat` input, `none`
    standing for a string that fails to parse;
  * `hashlib.md5(...).hexdigest()` is implemented in full (RFC 1321) over the
    UTF-8 bytes of the input string.
-/

set_option maxRecDepth 40000

namespace Kompanion

/-! ### Python-string helpers -/

/-- Model of Python `sep.join(list)`. -/
def pyJoin (sep : String) : List String → String
  | [] => ""
  | [a] => a
  | a :: b :: rest => a ++ sep ++ pyJoin sep (b :: rest)

/-- Model of Python `a or b` on two optional strings (`None` and `""` are falsy). -/
def pyOrStr (a b : Option String) : Option String :=
  match a with
  | some s => if s = "" then b else some s
  | none => b

/-- Model of SQLAlchemy `Result.scalar_one_or_none()` applied to the filtered
rows: `none` models the `MultipleResultsFound` exception. -/
def scalarOneOrNone {α : Type} : List α → Option (Option α)
  | [] => some none
  | [a] => some (some a)
  | _ :: _ :: _ => none

/-! ### UTF-8 and MD5 (model of `password.encode('utf-8')` and
`hashlib.md5(...).hexdigest()`, RFC 1321) -/

/-- UTF-8 encoding of one code point. -/
def utf8Bytes (c : Char) : List Nat :=
  let n := c.toNat
  if n < 128 then [n]
  else if n < 2048 then [192 + n / 64, 128 + n % 64]
  else if n < 65536 then [224 + n / 4096, 128 + n / 64 % 64, 128 + n % 64]
  else [240 + n / 262144, 128 + n / 4096 % 64, 128 + n / 64 % 64, 128 + n % 64]

/-- UTF-8 bytes of a string, as natural numbers below 256. -/
def strBytes (s : String) : List Nat := s.data.flatMap utf8Bytes

/-- Per-round left-rotation amounts of MD5. -/
def md5S : List Nat :=
  [7, 12, 17, 22, 7, 12, 17, 22, 7, 12, 17, 22, 7, 12, 17, 22,
   5, 9, 14, 20, 5, 9, 14, 20, 5, 9, 14, 20, 5, 9, 14, 20,
   4, 11, 16, 23, 4, 11, 16, 23, 4, 11, 16, 23, 4, 11, 16, 23,
   6, 10, 15, 21, 6, 10, 15, 21, 6, 10, 15, 21, 6, 10, 15, 21]

/-- Sine-derived additive constants of MD5. -/
def md5K : List Nat :=
  [3614090360, 3905402710, 606105819, 3250441966, 4118548399, 1200080426, 2821735955, 4249261313,
   1770035416, 2336552879, 4294925233, 2304563134, 1804603682, 4254626195, 2792965006, 1236535329,
   4129170786, 3225465664, 643717713, 3921069994, 3593408605, 38016083, 3634488961, 3889429448,
   568446438, 3275163606, 4107603335, 1163531501, 2850285829, 4243563512, 1735328473, 2368359562,
   4294588738, 2272392833, 1839030562, 4259657740, 2763975236, 1272893353, 4139469664, 3200236656,
   681279174, 3936430074, 3572445317, 76029189, 3654602809, 3873151461, 530742520, 3299628645,
   4096336452, 1126891415, 2878612391, 4237533241, 1700485571, 2399980690, 4293915773, 2240044497,
   1873313359, 4264355552, 2734768916, 1309151649, 4149444226, 3174756917, 718787259, 3951481745]

/-- Truncation to 32 bits. -/
def w32 (n : Nat) : Nat := n % 4294967296

/-- Left-rotation of a 32-bit word. -/
def rotl32 (x s : Nat) : Nat := w32 (x <<< s ||| x >>> (32 - s))

/-- Bitwise complement within 32 bits. -/
def not32 (x : Nat) : Nat := x ^^^ 4294967295

/-- MD5 padding: a 0x80 byte, zeros up to 56 mod 64, then the bit length as
eight little-endian bytes. -/
def md5Pad (msg : List Nat) : List Nat :=
  let n := msg.length
  let zeros := (119 - n % 64) % 64
  msg ++ [128] ++ List.replicate zeros 0 ++
    [8 * n % 256, 8 * n / 256 % 256, 8 * n / 65536 % 256, 8 * n / 16777216 % 256,
     8 * n / 4294967296 % 256, 8 * n / 1099511627776 % 256,
     8 * n / 281474976710656 % 256, 8 * n / 72057594037927936 % 256]

/-- Little-endian 32-bit word `g` of 64-byte chunk number `chunk`. -/
def chunkWord (padded : List Nat) (chunk g : Nat) : Nat :=
  let b := fun j => padded.getD (chunk * 64 + 4 * g + j) 0
  b 0 + 256 * b 1 + 65536 * b 2 + 16777216 * b 3

/-- One of the 64 MD5 rounds. -/
def md5Round (padded : List Nat) (chunk : Nat) (st : Nat × Nat × Nat × Nat) (i : Nat) :
    Nat × Nat × Nat × Nat :=
  let (a, b, c, d) := st
  let (f, g) :=
    if i < 16 then ((b &&& c) ||| (not32 b &&& d), i)
    else if i < 32 then ((d &&& b) ||| (not32 d &&& c), (5 * i + 1) % 16)
    else if i < 48 then (b ^^^ c ^^^ d, (3 * i + 5) % 16)
    else (c ^^^ (b ||| not32 d), 7 * i % 16)
  let f' := w32 (f + a + md5K.getD i 0 + chunkWord padded chunk g)
  (d, w32 (b + rotl32 f' (md5S.getD i 0)), b, c)

/-- Processing of one 64-byte chunk. -/
def md5Chunk (padded : List Nat) (st : Nat × Nat × Nat × Nat) (chunk : Nat) :
    Nat × Nat × Nat × Nat :=
  let (a0, b0, c0, d0) := st
  let (a, b, c, d) := (List.range 64).foldl (md5Round padded chunk) (a0, b0, c0, d0)
  (w32 (a0 + a), w32 (b0 + b), w32 (c0 + c), w32 (d0 + d))

/-- Little-endian byte serialization of a 32-bit word. -/
def wordLE4 (x : Nat) : List Nat :=
  [x % 256, x / 256 % 256, x / 65536 % 256, x / 16777216 % 256]

/-- MD5 digest (16 bytes) of a byte sequence. -/
def md5Bytes (msg : List Nat) : List Nat :=
  let padded := md5Pad msg
  let (a, b, c, d) :=
    (List.range (padded.length / 64)).foldl (md5Chunk padded)
      (1732584193, 4023233417, 2562383102, 271733878)
  wordLE4 a ++ wordLE4 b ++ wordLE4 c ++ wordLE4 d

/-- Lowercase hexadecimal digit. -/
def hexDigit (n : Nat) : Char :=
  if n < 10 then Char.ofNat (48 + n) else Char.ofNat (87 + n)

/-- Lowercase hexadecimal rendering of a byte sequence, two digits per byte. -/
def hexOfBytes : List Nat → List Char
  | [] => []
  | b :: rest => hexDigit (b / 16 % 16) :: hexDigit (b % 16) :: hexOfBytes rest

/-- Model of `hashlib.md5(s.encode('utf-8')).hexdigest()`. -/
def md5_hexdigest (s : String) : String := String.mk (hexOfBytes (md5Bytes (strBytes s)))

/-! ### app/core/security.py -/

/-- Source: `hash_password_md5` — KOReader-compatible unsalted MD5 hash. -/
def hash_password_md5 (password : String) : String := md5_hexdigest password

/-- Source: `verify_password_md5`. -/
def verify_password_md5 (password hashed_password : String) : Bool :=
  hash_password_md5 password == hashed_password

/-- Source: `verify_password` — dispatches on the stored hash's length; the
bcrypt backend (external `passlib` library) is abstracted as a parameter. -/
def verify_password (bcryptVerify : String → String → Bool)
    (plain_password hashed_password : String) : Bool :=
  if hashed_password.length = 32 then verify_password_md5 plain_password hashed_password
  else bcryptVerify plain_password hashed_password

/-- Characters removed by `re.sub(r'[<>:"/\\|?*]', '', filename)` in
`InputValidator.sanitize_filename`. -/
def forbiddenChar (c : Char) : Bool :=
  c = '<' || c = '>' || c = ':' || c = '"' || c = '/' || c = '\\' ||
  c = '|' || c = '?' || c = '*'

/-- Model of the regex substitution that deletes every forbidden character. -/
def removeForbidden (l : List Char) : List Char := l.filter (fun c => !forbiddenChar c)

/-- Model of Python `filename.replace('..', '')`: one greedy left-to-right pass
deleting non-overlapping occurrences of two consecutive dots. -/
def replaceDotDot : List Char → List Char
  | '.' :: '.' :: rest => replaceDotDot rest
  | c :: rest => c :: replaceDotDot rest
  | [] => []

/-- Model of `filename.rsplit('.', 1)` guarded by `'.' in filename`: splits at
the last dot, `none` when the list has no dot. -/
def rsplitDot : List Char → Option (List Char × List Char)
  | [] => none
  | c :: rest =>
    match rsplitDot rest with
    | some (n, e) => some (c :: n, e)
    | none => if c = '.' then some ([], rest) else none

/-- Source: `InputValidator.sanitize_filename`. -/
def sanitize_filename (filename : String) : String :=
  let f := replaceDotDot (removeForbidden filename.data)
  if 255 < f.length then
    match rsplitDot f with
    | some (name, ext) =>
      String.mk (name.take 250 ++ (if ext ≠ [] then '.' :: ext else []))
    | none => String.mk (f.take 250)
  else String.mk f

/-- Observer: does the string contain a character removed by the sanitizer? -/
def containsForbidden (s : String) : Bool := s.data.any forbiddenChar

/-- Observer: does the list contain two consecutive dots? -/
def hasDotDotAux : List Char → Bool
  | c :: d :: rest => (c == '.' && d == '.') || hasDotDotAux (d :: rest)
  | _ => false

/-- Observer: does the string contain two consecutive dots? -/
def hasDotDot (s : String) : Bool := hasDotDotAux s.data

/-- Length of the part after the last dot (0 when there is no dot). -/
def extLenAfterLastDot (l : List Char) : Nat :=
  match rsplitDot l with
  | some (_, e) => e.length
  | none => 0

/-! ### app/models/user.py, app/schemas/auth.py, app/api/deps.py,
app/api/v1/auth.py -/

/-- Source: the `users` table row (`app/models/user.py`); timestamps are tick
values, JSON `settings` stays an opaque optional string. -/
structure User where
  id : Nat
  username : String
  password_hash : String
  email : Option String
  is_active : Bool
  is_admin : Bool
  created_at : Nat
  updated_at : Nat
  last_login_at : Option Nat
  settings : Option String
deriving DecidableEq

/-- Source: `User.check_password` — unsalted MD5 comparison. -/
def User.check_password (u : User) (password : String) : Bool :=
  u.password_hash == md5_hexdigest password

/-- Source: `User.update_last_login` with `datetime.utcnow()` passed in. -/
def User.update_last_login (u : User) (now : Nat) : User :=
  { u with last_login_at := some now }

/-- Model of Python `str.lower()` (ASCII case folding). -/
def pyLower (s : String) : String := String.mk (s.data.map Char.toLower)

/-- Source: the `UserLogin` pydantic schema; its `validate_username` validator
lowercases the submitted username. -/
structure UserLogin where
  username : String
  password : String

/-- Construction of a `UserLogin` from raw form fields, applying the
`validate_username` validator. -/
def UserLogin.validate (username password : String) : UserLogin :=
  ⟨pyLower username, password⟩

/-- Row predicate of `select(User).where(User.username == uname)`. -/
def userMatch (uname : String) (u : User) : Bool := u.username == uname

/-- Source: `authenticate_kosync_user` (`app/api/deps.py`). The outer `none`
models the `MultipleResultsFound` exception escaping `scalar_one_or_none`;
`some none` models an authentication failure. -/
def authenticate_kosync_user (users : List User) (username password : String) :
    Option (Option User) :=
  match scalarOneOrNone (users.filter (userMatch (pyLower username))) with
  | none => none
  | some none => some none
  | some (some user) =>
    if !user.check_password password then some none
    else if !user.is_active then some none
    else some (some user)

/-- Source: the `KosyncUserAuthResponse` schema. -/
structure KosyncUserAuthResponse where
  username : String
  userkey : String
deriving DecidableEq

/-- Session-commit model: replace the first user row matched by the login
query with its mutated version. -/
def updateFirstUser (uname : String) (f : User → User) : List User → List User
  | [] => []
  | u :: rest =>
    if userMatch uname u then f u :: rest else u :: updateFirstUser uname f rest

/-- Source: `login_user` (`app/api/v1/auth.py`): authenticate, update the last
login time, commit, and answer with the username and the stored MD5 hash as
`userkey`; `error 401` models the `HTTPException(401)`, `error 500` an
uncaught database exception. -/
def login_user (users : List User) (now : Nat) (ud : UserLogin) :
    Except Nat KosyncUserAuthResponse × List User :=
  match authenticate_kosync_user users ud.username ud.password with
  | none => (Except.error 500, users)
  | some none => (Except.error 401, users)
  | some (some user) =>
    (Except.ok ⟨user.username, user.password_hash⟩,
     updateFirstUser (pyLower ud.username) (fun u => u.update_last_login now) users)

/-- Source: `kosync_auth_user` — the form endpoint POST /api/v1/auth/users/auth,
which builds a `UserLogin` from the form fields and delegates to `login_user`. -/
def kosync_auth_user (users : List User) (now : Nat) (username password : String) :
    Except Nat KosyncUserAuthResponse × List User :=
  login_user users now (UserLogin.validate username password)

/-! ### app/models/sync_progress.py, app/schemas/sync.py, app/api/v1/sync.py -/

/-- Source: the `sync_progress` table row; numeric progress values are `Rat`,
datetimes are tick values. -/
structure SyncProgress where
  id : Nat
  user_id : Nat
  device_id : Option Nat
  book_id : Option Nat
  document : String
  document_hash : Option String
  progress : Rat
  percentage : Rat
  device_name : Option String
  device : Option String
  page : Option Int
  pos : Option String
  chapter : Option String
  book_title : Option String
  book_author : Option String
  last_sync_at : Option Nat
  sync_count : Nat
  extra_data : Option String
  created_at : Nat
  updated_at : Nat
deriving DecidableEq

/-- Source: `SyncProgress.update_progress` with `datetime.utcnow()` passed in
as `now`. -/
def SyncProgress.update_progress (sp : SyncProgress) (progress percentage : Rat)
    (page : Option Int) (pos chapter : Option String) (now : Nat) : SyncProgress :=
  { sp with
    progress := progress
    percentage := percentage
    page := match page with | some p => some p | none => sp.page
    pos := match pos with | some p => some p | none => sp.pos
    chapter := match chapter with | some c => some c | none => sp.chapter
    last_sync_at := some now
    sync_count := sp.sync_count + 1
    updated_at := now }

/-- Source: the `KosyncProgressResponse` schema; the wire format carries
`str(progress)`, modelled by the `Rat` value itself. -/
structure KosyncProgressResponse where
  document : String
  progress : Rat
  percentage : Rat
  device : Option String
  device_id : Option String
  timestamp : Option Nat
deriving DecidableEq

/-- Source: `KosyncProgressResponse.from_sync_progress`; Python truthiness of
the optional integer `device_id` makes `0` behave like `None`. -/
def KosyncProgressResponse.from_sync_progress (sp : SyncProgress) : KosyncProgressResponse :=
  { document := sp.document
    progress := sp.progress
    percentage := sp.percentage
    device := pyOrStr sp.device sp.device_name
    device_id := match sp.device_id with
      | some n => if n = 0 then none else some (toString n)
      | none => none
    timestamp := sp.last_sync_at }

/-- Row predicate of
`select(SyncProgress).where(user_id == uid, document == doc)`. -/
def syncMatch (uid : Nat) (doc : String) (r : SyncProgress) : Bool :=
  r.user_id == uid && r.document == doc

/-- Session-commit model: replace the row found by the query (the first match)
with its mutated version. -/
def updateFirstMatching (uid : Nat) (doc : String) (f : SyncProgress → SyncProgress) :
    List SyncProgress → List SyncProgress
  | [] => []
  | r :: rest =>
    if syncMatch uid doc r then f r :: rest else r :: updateFirstMatching uid doc f rest

/-- In-session mutation performed by the upload handler on an existing row:
`update_progress(...)` followed by the two device-field assignments. -/
def uploadedUpdate (progress percentage : Rat) (device : Option String)
    (page : Option Int) (pos chapter : Option String) (now : Nat)
    (e : SyncProgress) : SyncProgress :=
  { e.update_progress progress percentage page pos chapter now with
    device_name := device
    device := device }

/-- Row inserted by the upload handler when no row matches, with the column
defaults (`last_sync_at`/`created_at`/`updated_at` = now, `sync_count` = 1)
applied at commit and `newId` the id assigned by the database. -/
def uploadedNewRow (uid : Nat) (document : String) (progress percentage : Rat)
    (device : Option String) (page : Option Int) (pos chapter : Option String)
    (now newId : Nat) : SyncProgress :=
  { id := newId
    user_id := uid
    device_id := none
    book_id := none
    document := document
    document_hash := none
    progress := progress
    percentage := percentage
    device_name := device
    device := device
    page := page
    pos := pos
    chapter := chapter
    book_title := none
    book_author := none
    last_sync_at := some now
    sync_count := 1
    extra_data := none
    created_at := now
    updated_at := now }

/-- Source: `upload_sync_progress` (PUT /api/v1/sync/progress).

The `progress` argument is the value of `float(progress_form_field)` computed
by the `SyncProgressCreate` validator, `none` when that conversion raises; the
validator's percentage range check is inlined.  Every exception of the
`try` block lands in the `except` handler, which rolls back and answers HTTP
500: a validation error, `MultipleResultsFound`, a commit failure
(`commitOk = false`) — and, because the `try` block extends past the commit,
also a failure of `await db.refresh(sync_progress)` or of the response
construction after a successful commit (`refreshOk = false`).  In that last
case the rollback undoes nothing and the committed upsert persists.  The
result pairs the HTTP outcome with the persisted rows after the request. -/
def upload_sync_progress (db : List SyncProgress) (uid : Nat) (document : String)
    (progress : Option Rat) (percentage : Rat) (device : Option String)
    (device_id : Option String) (page : Option Int) (pos chapter : Option String)
    (now newId : Nat) (commitOk refreshOk : Bool) :
    Except Nat KosyncProgressResponse × List SyncProgress :=
  match progress with
  | none => (Except.error 500, db)
  | some pr =>
    if 0 ≤ percentage ∧ percentage ≤ 100 then
      match scalarOneOrNone (db.filter (syncMatch uid document)) with
      | none => (Except.error 500, db)
      | some existing =>
        let row := match existing with
          | some e => uploadedUpdate pr percentage device page pos chapter now e
          | none => uploadedNewRow uid document pr percentage device page pos chapter now newId
        let pending := match existing with
          | some _ =>
            updateFirstMatching uid document
              (uploadedUpdate pr percentage device page pos chapter now) db
          | none => db ++ [uploadedNewRow uid document pr percentage device page pos chapter now newId]
        if commitOk then
          if refreshOk then
            (Except.ok (KosyncProgressResponse.from_sync_progress row), pending)
          else (Except.error 500, pending)
        else (Except.error 500, db)
    else (Except.error 500, db)

/-- Source: `get_document_progress` (GET /api/v1/sync/progress/\x7bdocument\x7d):
404 when no row matches, otherwise the kosync-format response; the handler has
no `try`/`except`, so `MultipleResultsFound` escapes as a generic 500.  The
second component is the stored state after the request. -/
def get_document_progress (db : List SyncProgress) (uid : Nat) (document : String) :
    Except Nat KosyncProgressResponse × List SyncProgress :=
  match scalarOneOrNone (db.filter (syncMatch uid document)) with
  | none => (Except.error 500, db)
  | some none => (Except.error 404, db)
  | some (some sp) => (Except.ok (KosyncProgressResponse.from_sync_progress sp), db)

/-! ### app/core/cache.py -/

/-- Source: `CacheManager` — the connected Redis client is modelled by the
key-value lookup it provides (`none` values covering misses and
deserialization failures). -/
structure CacheManager (κ α : Type) where
  redis_client : Option (κ → Option α)
  enabled : Bool

/-- Source: `CacheManager.get`. -/
def CacheManager.get {κ α : Type} (cm : CacheManager κ α) (key : κ) : Option α :=
  if cm.enabled = false ∨ cm.redis_client.isNone then none
  else
    match cm.redis_client with
    | some store => store key
    | none => none

/-- Source: the `async_wrapper` produced by the `cache_result` decorator; the
`cache_manager.set` call only writes to Redis and does not affect the returned
value, so it is not part of the result. -/
def async_wrapper {κ α σ : Type} (cm : CacheManager κ α) (genKey : σ → κ)
    (f : σ → α) (args : σ) : α :=
  if cm.enabled = false then f args
  else
    match cm.get (genKey args) with
    | some cached => cached
    | none => f args

/-! ### app/schemas/opds.py and `generate_opds_xml` (app/api/v1/opds.py)

Datetimes are modelled by their `isoformat()` rendering, which is the only way
the generator consumes them. -/

/-- Source: the `OPDSAuthor` schema. -/
structure OPDSAuthor where
  name : String
  uri : Option String

/-- Source: the `OPDSLink` schema. -/
structure OPDSLink where
  rel : String
  href : String
  type : Option String
  title : Option String

/-- Source: the `OPDSCategory` schema. -/
structure OPDSCategory where
  term : String
  label : Option String
  scheme : Option String

/-- Source: the `OPDSEntry` schema. -/
structure OPDSEntry where
  id : String
  title : String
  updated : String
  summary : Option String
  content : Option String
  authors : List OPDSAuthor
  categories : List OPDSCategory
  links : List OPDSLink
  rights : Option String
  published : Option String

/-- Source: the `OPDSFeed` schema. -/
structure OPDSFeed where
  id : String
  title : String
  subtitle : Option String
  updated : String
  icon : Option String
  authors : List OPDSAuthor
  links : List OPDSLink
  entries : List OPDSEntry
  total_results : Option Int
  items_per_page : Option Int
  start_index : Option Int

/-- Python `if opt_string:` guard around one generated line (`None` and the
empty string are falsy). -/
def optStrLine (o : Option String) (f : String → String) : List String :=
  match o with
  | some s => if s = "" then [] else [f s]
  | none => []

/-- Python `if opt_int is not None:` guard around one generated line. -/
def optIntLine (o : Option Int) (f : Int → String) : List String :=
  match o with
  | some n => [f n]
  | none => []

/-- Lines appended for one `<author>` block. -/
def authorLines (a : OPDSAuthor) : List String :=
  ["<author>", "<name>" ++ a.name ++ "</name>"] ++
  optStrLine a.uri (fun u => "<uri>" ++ u ++ "</uri>") ++
  ["</author>"]

/-- Line appended for one `<link ... />`. -/
def linkLine (l : OPDSLink) : String :=
  let attrs := ["rel=\"" ++ l.rel ++ "\"", "href=\"" ++ l.href ++ "\""] ++
    optStrLine l.type (fun t => "type=\"" ++ t ++ "\"") ++
    optStrLine l.title (fun t => "title=\"" ++ t ++ "\"")
  "<link " ++ pyJoin " " attrs ++ " />"

/-- Line appended for one `<category ... />`. -/
def categoryLine (c : OPDSCategory) : String :=
  let attrs := ["term=\"" ++ c.term ++ "\""] ++
    optStrLine c.label (fun l => "label=\"" ++ l ++ "\"") ++
    optStrLine c.scheme (fun s => "scheme=\"" ++ s ++ "\"")
  "<category " ++ pyJoin " " attrs ++ " />"

/-- Lines appended for one feed entry (`published` is a datetime: only `None`
is falsy there). -/
def entryLines (e : OPDSEntry) : List String :=
  ["<entry>",
   "<id>" ++ e.id ++ "</id>",
   "<title>" ++ e.title ++ "</title>",
   "<updated>" ++ e.updated ++ "Z</updated>"] ++
  (match e.published with
   | some p => ["<published>" ++ p ++ "Z</published>"]
   | none => []) ++
  optStrLine e.summary (fun s => "<summary>" ++ s ++ "</summary>") ++
  optStrLine e.content (fun c => "<content type=\"text\">" ++ c ++ "</content>") ++
  optStrLine e.rights (fun r => "<rights>" ++ r ++ "</rights>") ++
  e.authors.flatMap authorLines ++
  e.categories.map categoryLine ++
  e.links.map linkLine ++
  ["</entry>"]

/-- The `xml_content` list built by `generate_opds_xml` before the final
`'\n'.join`. -/
def opdsFeedLines (feed : OPDSFeed) : List String :=
  ["<?xml version=\"1.0\" encoding=\"UTF-8\"?>",
   "<feed xmlns=\"http://www.w3.org/2005/Atom\" xmlns:opds=\"http://opds-spec.org/2010/catalog\">",
   "<id>" ++ feed.id ++ "</id>",
   "<title>" ++ feed.title ++ "</title>"] ++
  optStrLine feed.subtitle (fun s => "<subtitle>" ++ s ++ "</subtitle>") ++
  ["<updated>" ++ feed.updated ++ "Z</updated>"] ++
  optStrLine feed.icon (fun i => "<icon>" ++ i ++ "</icon>") ++
  feed.authors.flatMap authorLines ++
  feed.links.map linkLine ++
  optIntLine feed.total_results (fun n =>
    "<opensearch:totalResults xmlns:opensearch=\"http://a9.com/-/spec/opensearch/1.1/\">" ++
    toString n ++ "</opensearch:totalResults>") ++
  optIntLine feed.items_per_page (fun n =>
    "<opensearch:itemsPerPage xmlns:opensearch=\"http://a9.com/-/spec/opensearch/1.1/\">" ++
    toString n ++ "</opensearch:itemsPerPage>") ++
  optIntLine feed.start_index (fun n =>
    "<opensearch:startIndex xmlns:opensearch=\"http://a9.com/-/spec/opensearch/1.1/\">" ++
    toString n ++ "</opensearch:startIndex>") ++
  feed.entries.flatMap entryLines ++
  ["</feed>"]

/-- Source: `generate_opds_xml`. -/
def generate_opds_xml (feed : OPDSFeed) : String := pyJoin "\n" (opdsFeedLines feed)

/-! ### `WebDAVService.generate_propfind_response` (app/api/v1/webdav.py)

The filesystem is modelled as an association list from path strings to
entries; `iterdir()` enumerates an entry's stored child names; the rendered
`strftime`/`isoformat` timestamps are carried as opaque strings; `urllib`'s
`quote`/`unquote` are abstract string functions passed in as parameters. -/

/-- Filesystem entry: a directory with its child names or a file with its
size, plus the rendered stat timestamps. -/
structure FSEntry where
  isDirectory : Bool
  childNames : List String
  size : Nat
  modified : String
  created : String

/-- Filesystem: association list from absolute path to entry. -/
def FS : Type := List (String × FSEntry)

/-- Path lookup (`Path.exists` / `Path.stat`). -/
def fsLookup (fs : FS) (p : String) : Option FSEntry :=
  match List.find? (fun e => e.1 == p) fs with
  | some e => some e.2
  | none => none

/-- Model of `Path.mkdir(parents=True, exist_ok=True)` for one directory. -/
def mkdirP (fs : FS) (p : String) : FS :=
  match fsLookup fs p with
  | some _ => fs
  | none => (p, ⟨true, [], 0, "", ""⟩) :: fs

/-- Source: `WebDAVService.ensure_webdav_dirs` rooted at `root`. -/
def ensure_webdav_dirs (fs : FS) (root : String) : FS :=
  mkdirP (mkdirP fs root) (root ++ "/statistics")

/-- Last path component (`Path.name`). -/
def baseName (p : String) : String :=
  String.mk ((p.data.reverse.takeWhile (fun c => c ≠ '/')).reverse)

/-- Source: the dictionary returned by `WebDAVService.get_file_info`. -/
structure FileInfo where
  name : String
  path : String
  is_directory : Bool
  size : Nat
  modified : String
  created : String
  content_type : String

/-- Source: `WebDAVService.get_file_info`. -/
def get_file_info (fs : FS) (path : String) : Option FileInfo :=
  match fsLookup fs path with
  | none => none
  | some e =>
    some { name := baseName path
           path := path
           is_directory := e.isDirectory
           size := if e.isDirectory then 0 else e.size
           modified := e.modified
           created := e.created
           content_type := if e.isDirectory then "httpd/unix-directory"
             else "application/octet-stream" }

/-- ElementTree node: tag, attributes, text and children. -/
inductive XElem where
  | elem (tag : String) (attrs : List (String × String)) (text : Option String)
      (children : List XElem)

/-- Tag of a node. -/
def XElem.tag : XElem → String
  | .elem t _ _ _ => t

/-- Attributes of a node. -/
def XElem.attrs : XElem → List (String × String)
  | .elem _ a _ _ => a

/-- Text of a node. -/
def XElem.text : XElem → Option String
  | .elem _ _ s _ => s

/-- Children of a node. -/
def XElem.children : XElem → List XElem
  | .elem _ _ _ c => c

/-- Python `path.lstrip('/')`. -/
def lstripSlash (s : String) : String :=
  String.mk (s.data.dropWhile (fun c => c = '/'))

/-- `pathlib` `/` on a root and a relative part (joining with `""` is the
identity). -/
def joinPath (a b : String) : String := if b = "" then a else a ++ "/" ++ b

/-- Model of `child_path.relative_to(webdav_root)` as a string: drop the root
and its separator. -/
def relativeTo (root p : String) : String :=
  String.mk (p.data.drop (root.data.length + 1))

/-- Properties emitted for the requested resource (resourcetype, content
length for non-directories, last-modified, creation date). -/
def propChildrenFull (fi : FileInfo) : List XElem :=
  [XElem.elem "D:resourcetype" [] none
    (if fi.is_directory then [XElem.elem "D:collection" [] none []] else [])] ++
  (if fi.is_directory then []
   else [XElem.elem "D:getcontentlength" [] (some (toString fi.size)) []]) ++
  [XElem.elem "D:getlastmodified" [] (some fi.modified) [],
   XElem.elem "D:creationdate" [] (some (fi.created ++ "Z")) []]

/-- Properties emitted for a child resource (no creation date). -/
def propChildrenChild (fi : FileInfo) : List XElem :=
  [XElem.elem "D:resourcetype" [] none
    (if fi.is_directory then [XElem.elem "D:collection" [] none []] else [])] ++
  (if fi.is_directory then []
   else [XElem.elem "D:getcontentlength" [] (some (toString fi.size)) []]) ++
  [XElem.elem "D:getlastmodified" [] (some fi.modified) []]

/-- A `D:response` with its href, property block and `HTTP/1.1 200 OK` status. -/
def responseFor (href : String) (propKids : List XElem) : XElem :=
  XElem.elem "D:response" [] none
    [XElem.elem "D:href" [] (some href) [],
     XElem.elem "D:propstat" [] none
       [XElem.elem "D:prop" [] none propKids,
        XElem.elem "D:status" [] (some "HTTP/1.1 200 OK") []]]

/-- The loop body adding one child `D:response` for a directory entry. -/
def childResponse (fs : FS) (root requested : String) (quoteF : String → String)
    (name : String) : XElem :=
  let childPath := joinPath requested name
  responseFor ("/api/v1/webdav/" ++ quoteF (relativeTo root childPath))
    (match get_file_info fs childPath with
     | some ci => propChildrenChild ci
     | none => [])

/-- Resolution of the requested path: decoded relative part under the WebDAV
root, falling back to the root when it does not exist. -/
def resolvedPath (fs : FS) (root : String) (unquoteF : String → String)
    (path : String) : String :=
  let fs1 := ensure_webdav_dirs fs root
  let r0 := joinPath root (unquoteF (lstripSlash path))
  if (fsLookup fs1 r0).isSome then r0 else root

/-- Source: `WebDAVService.generate_propfind_response`, returning the element
tree serialized by `tostring`. -/
def generate_propfind_response (fs : FS) (root : String)
    (quoteF unquoteF : String → String) (path depth : String) : XElem :=
  let fs1 := ensure_webdav_dirs fs root
  let requested := resolvedPath fs root unquoteF path
  let fi := get_file_info fs1 requested
  let mainResp := responseFor ("/api/v1/webdav/" ++ quoteF (lstripSlash path))
    (match fi with
     | some i => propChildrenFull i
     | none => [])
  let kids :=
    if depth = "1" ∧ (match fi with | some i => i.is_directory | none => false) = true then
      (match fsLookup fs1 requested with
       | some e => e.childNames
       | none => []).map (childResponse fs1 root requested quoteF)
    else []
  XElem.elem "D:multistatus" [("xmlns:D", "DAV:")] none (mainResp :: kids)

/-- Observer: texts of `D:status` nodes inside the propstat blocks of a
response. -/
def XElem.statusTexts (resp : XElem) : List String :=
  resp.children.flatMap (fun ps =>
    if ps.tag = "D:propstat" then
      ps.children.filterMap (fun c => if c.tag = "D:status" then c.text else none)
    else [])

/-- Observer: tags of the property nodes inside the propstat blocks of a
response. -/
def XElem.propTags (resp : XElem) : List String :=
  resp.children.flatMap (fun ps =>
    if ps.tag = "D:propstat" then
      ps.children.flatMap (fun pr =>
        if pr.tag = "D:prop" then pr.children.map XElem.tag else [])
    else [])

/-- Observer: does a response carry a `D:resourcetype` property containing a
`D:collection` marker? -/
def XElem.hasCollection (resp : XElem) : Bool :=
  resp.children.any (fun ps =>
    ps.tag == "D:propstat" && ps.children.any (fun pr =>
      pr.tag == "D:prop" && pr.children.any (fun rt =>
        rt.tag == "D:resourcetype" && rt.children.any (fun c => c.tag == "D:collection"))))

/-- Is the path an existing directory? -/
def isDirAt (fs : FS) (p : String) : Bool :=
  match fsLookup fs p with
  | some e => e.isDirectory
  | none => false

/-- Child names of the entry at the path (`iterdir`), empty when absent. -/
def childNamesAt (fs : FS) (p : String) : List String :=
  match fsLookup fs p with
  | some e => e.childNames
  | none => []

/-! ## Helper lemmas -/

theorem hexOfBytes_length (l : List Nat) : (hexOfBytes l).length = 2 * l.length := by
  induction l with
  | nil => rfl
  | cons b rest ih =>
    simp only [hexOfBytes, List.length_cons, ih]
    ring

theorem md5Bytes_length (msg : List Nat) : (md5Bytes msg).length = 16 := by
  unfold md5Bytes
  generalize (List.range ((md5Pad msg).length / 64)).foldl (md5Chunk (md5Pad msg))
      (1732584193, 4023233417, 2562383102, 271733878) = st
  obtain ⟨a, b, c, d⟩ := st
  simp [wordLE4]

theorem md5_hexdigest_length (s : String) : (md5_hexdigest s).length = 32 := by
  show (hexOfBytes (md5Bytes (strBytes s))).length = 32
  rw [hexOfBytes_length, md5Bytes_length]

/-! ## C4 — `verify_password` dispatch and the MD5 round trip -/

/-- C4: `verify_password p h` dispatches to the MD5 comparison exactly when
`h` has length 32 and to the bcrypt backend otherwise; `hash_password_md5`
always produces a 32-character hex digest, so the MD5 round trip
`verify_password p (hash_password_md5 p) = true` holds for every password. -/
theorem verify_password_spec (bcryptVerify : String → String → Bool) (p h : String) :
    (h.length = 32 → verify_password bcryptVerify p h = verify_password_md5 p h) ∧
    (h.length ≠ 32 → verify_password bcryptVerify p h = bcryptVerify p h) ∧
    (hash_password_md5 p).length = 32 ∧
    verify_password bcryptVerify p (hash_password_md5 p) = true := by
  refine ⟨fun hl => ?_, fun hl => ?_, md5_hexdigest_length p, ?_⟩
  · simp [verify_password, hl]
  · simp [verify_password, hl]
  · have h32 : (hash_password_md5 p).length = 32 := md5_hexdigest_length p
    unfold verify_password
    rw [if_pos h32]
    simp [verify_password_md5]

/-- Witness for C4 at concrete inputs: the MD5 branch is taken on a
32-character hash, the bcrypt branch on a shorter one, and the round trip
evaluates to `true`. -/
theorem verify_password_spec_witness :
    verify_password (fun _ _ => false) "pw" "d41d8cd98f00b204e9800998ecf8427e" =
      verify_password_md5 "pw" "d41d8cd98f00b204e9800998ecf8427e" ∧
    verify_password (fun _ _ => false) "pw" "short" = false ∧
    verify_password (fun _ _ => false) "pw" (hash_password_md5 "pw") = true :=
  ⟨(verify_password_spec (fun _ _ => false) "pw" "d41d8cd98f00b204e9800998ecf8427e").1
      (by decide),
   ((verify_password_spec (fun _ _ => false) "pw" "short").2.1 (by decide)).trans rfl,
   (verify_password_spec (fun _ _ => false) "pw" (hash_password_md5 "pw")).2.2.2⟩

/-! ## C10 — `SyncProgress.update_progress` effect and frame -/

/-- C10: `update_progress` sets `progress` and `percentage` to its arguments,
increments `sync_count` by one, refreshes `last_sync_at` and `updated_at` to
the current time, keeps `page`/`pos`/`chapter` whenever the corresponding
argument is `None`, and leaves every other field unchanged. -/
theorem update_progress_frame (sp : SyncProgress) (progress percentage : Rat)
    (page : Option Int) (pos chapter : Option String) (now : Nat) :
    (sp.update_progress progress percentage page pos chapter now).progress = progress ∧
    (sp.update_progress progress percentage page pos chapter now).percentage = percentage ∧
    (sp.update_progress progress percentage page pos chapter now).sync_count = sp.sync_count + 1 ∧
    (sp.update_progress progress percentage page pos chapter now).last_sync_at = some now ∧
    (sp.update_progress progress percentage page pos chapter now).updated_at = now ∧
    (page = none → (sp.update_progress progress percentage page pos chapter now).page = sp.page) ∧
    (pos = none → (sp.update_progress progress percentage page pos chapter now).pos = sp.pos) ∧
    (chapter = none → (sp.update_progress progress percentage page pos chapter now).chapter = sp.chapter) ∧
    (sp.update_progress progress percentage page pos chapter now).id = sp.id ∧
    (sp.update_progress progress percentage page pos chapter now).user_id = sp.user_id ∧
    (sp.update_progress progress percentage page pos chapter now).device_id = sp.device_id ∧
    (sp.update_progress progress percentage page pos chapter now).book_id = sp.book_id ∧
    (sp.update_progress progress percentage page pos chapter now).document = sp.document ∧
    (sp.update_progress progress percentage page pos chapter now).document_hash = sp.document_hash ∧
    (sp.update_progress progress percentage page pos chapter now).device_name = sp.device_name ∧
    (sp.update_progress progress percentage page pos chapter now).device = sp.device ∧
    (sp.update_progress progress percentage page pos chapter now).book_title = sp.book_title ∧
    (sp.update_progress progress percentage page pos chapter now).book_author = sp.book_author ∧
    (sp.update_progress progress percentage page pos chapter now).extra_data = sp.extra_data ∧
    (sp.update_progress progress percentage page pos chapter now).created_at = sp.created_at := by
  refine ⟨rfl, rfl, rfl, rfl, rfl, ?_, ?_, ?_, rfl, rfl, rfl, rfl, rfl, rfl, rfl, rfl,
    rfl, rfl, rfl, rfl⟩
  all_goals (intro h; subst h; rfl)

/-- Concrete record used by several witnesses. -/
def spEx : SyncProgress :=
  { id := 1
    user_id := 2
    device_id := none
    book_id := none
    document := "b.epub"
    document_hash := none
    progress := 1
    percentage := 50
    device_name := some "kindle"
    device := some "kindle"
    page := some 10
    pos := none
    chapter := none
    book_title := none
    book_author := none
    last_sync_at := some 100
    sync_count := 3
    extra_data := none
    created_at := 50
    updated_at := 100 }

/-- Witness for C10: at a concrete record with `None` positional arguments the
frame conditions are discharged. -/
theorem update_progress_frame_witness :
    (spEx.update_progress 2 75 none none none 200).progress = 2 ∧
    (spEx.update_progress 2 75 none none none 200).page = spEx.page ∧
    (spEx.update_progress 2 75 none none none 200).pos = spEx.pos ∧
    (spEx.update_progress 2 75 none none none 200).chapter = spEx.chapter ∧
    (spEx.update_progress 2 75 none none none 200).sync_count = spEx.sync_count + 1 :=
  ⟨(update_progress_frame spEx 2 75 none none none 200).1,
   (update_progress_frame spEx 2 75 none none none 200).2.2.2.2.2.1 rfl,
   (update_progress_frame spEx 2 75 none none none 200).2.2.2.2.2.2.1 rfl,
   (update_progress_frame spEx 2 75 none none none 200).2.2.2.2.2.2.2.1 rfl,
   (update_progress_frame spEx 2 75 none none none 200).2.2.1⟩

/-! ## C8 — the cache decorator is transparent when caching is disabled -/

/-- C8: `CacheManager.get` returns `none` whenever caching is disabled or no
Redis client is connected, and with caching disabled the wrapper produced by
`cache_result` returns exactly the wrapped function's result. -/
theorem cache_result_disabled_transparent {κ α σ : Type} (cm : CacheManager κ α)
    (genKey : σ → κ) (f : σ → α) (args : σ) (key : κ)
    (h : cm.enabled = false ∨ cm.redis_client.isNone = true) :
    CacheManager.get cm key = none ∧
    (cm.enabled = false → async_wrapper cm genKey f args = f args) := by
  constructor
  · unfold CacheManager.get
    rw [if_pos]
    rcases h with h | h
    · exact Or.inl h
    · exact Or.inr h
  · intro hd
    unfold async_wrapper
    rw [if_pos hd]

/-- Concrete disabled cache manager whose store would nevertheless answer. -/
def cmEx : CacheManager Nat Nat := ⟨some (fun _ => some 7), false⟩

/-- Witness for C8: the disabled manager's `get` misses and the wrapped
function is called through. -/
theorem cache_result_disabled_transparent_witness :
    CacheManager.get cmEx 0 = none ∧
    async_wrapper cmEx (fun n => n) (fun n => n + 1) 5 = 6 :=
  ⟨(cache_result_disabled_transparent cmEx (fun n => n) (fun n => n + 1) 5 0
      (Or.inl rfl)).1,
   ((cache_result_disabled_transparent cmEx (fun n => n) (fun n => n + 1) 5 0
      (Or.inl rfl)).2 rfl).trans rfl⟩

/-! ## C2 — failures answer 500; atomicity stops at the commit -/

/-- Counterexample to C2 as stated: when the commit succeeds and the
post-commit `db.refresh` raises (still inside the handler's `try` block), the
handler answers HTTP 500 yet the stored rows have changed — the committed
upsert persists. -/
theorem upload_sync_progress_refresh_counterexample :
    (upload_sync_progress [spEx] 2 "b.epub" (some 2) 75 (some "boox") none
        none none none 200 9 true false).1 = Except.error 500 ∧
    (upload_sync_progress [spEx] 2 "b.epub" (some 2) 75 (some "boox") none
        none none none 200 9 true false).2 ≠ [spEx] :=
  ⟨rfl, by decide⟩

/-- C2 (amended): every failure of the kosync upload handler answers exactly
HTTP 500 — no other error status; an exception raised before a successful
commit (validation error, multiple matching rows, commit failure) is rolled
back, leaving the stored rows unchanged; the one remaining failure — an
exception after a successful commit, in `db.refresh` or the response
construction — also answers 500 but leaves exactly the rows the successful
request would have committed. -/
theorem upload_sync_progress_error_spec (db : List SyncProgress) (uid : Nat)
    (document : String) (progress : Option Rat) (percentage : Rat)
    (device device_id : Option String) (page : Option Int)
    (pos chapter : Option String) (now newId : Nat) (commitOk refreshOk : Bool)
    (code : Nat)
    (herr : (upload_sync_progress db uid document progress percentage device device_id
        page pos chapter now newId commitOk refreshOk).1 = Except.error code) :
    code = 500 ∧
    ((upload_sync_progress db uid document progress percentage device device_id
        page pos chapter now newId commitOk refreshOk).2 = db ∨
      (commitOk = true ∧ refreshOk = false ∧
        (upload_sync_progress db uid document progress percentage device device_id
            page pos chapter now newId commitOk refreshOk).2 =
          (upload_sync_progress db uid document progress percentage device device_id
            page pos chapter now newId true true).2)) := by
  unfold upload_sync_progress at herr ⊢
  cases progress with
  | none =>
    injection herr with h'
    exact ⟨h'.symm, Or.inl rfl⟩
  | some pr =>
    dsimp only at herr ⊢
    by_cases hpc : 0 ≤ percentage ∧ percentage ≤ 100
    · rw [if_pos hpc] at herr ⊢
      cases hs : scalarOneOrNone (db.filter (syncMatch uid document)) with
      | none =>
        rw [hs] at herr
        dsimp only at herr ⊢
        injection herr with h'
        exact ⟨h'.symm, Or.inl rfl⟩
      | some existing =>
        rw [hs] at herr
        dsimp only at herr ⊢
        cases commitOk with
        | true =>
          cases refreshOk with
          | true => exact absurd herr (by simp)
          | false =>
            injection herr with h'
            exact ⟨h'.symm, Or.inr ⟨rfl, rfl, by simp only [eq_self_iff_true, if_true,
              Bool.false_eq_true, if_false, hpc, and_self]⟩⟩
        | false =>
          injection herr with h'
          exact ⟨h'.symm, Or.inl rfl⟩
    · rw [if_neg hpc] at herr ⊢
      injection herr with h'
      exact ⟨h'.symm, Or.inl rfl⟩

/-- Witness for the amended C2: a submission whose percentage fails the 0–100
validation answers exactly HTTP 500 and leaves the single stored row
untouched. -/
theorem upload_sync_progress_error_spec_witness :
    (500 : Nat) = 500 ∧
    (upload_sync_progress [spEx] 2 "b.epub" (some 2) 140 (some "boox") none
        none none none 200 9 true true).2 = [spEx] := by
  have h := upload_sync_progress_error_spec [spEx] 2 "b.epub" (some 2) 140
    (some "boox") none none none none 200 9 true true 500
    (by norm_num [upload_sync_progress])
  refine ⟨h.1, ?_⟩
  rcases h.2 with h2 | ⟨_, hfalse, _⟩
  · exact h2
  · cases hfalse

/-! ## C5 — GET progress: 404 exactly on a missing row, otherwise read-only -/

/-- C5: under the uniqueness invariant of `(user_id, document)`, the GET
handler answers 404 exactly when no row matches; when the row exists it
answers the kosync-format response built from the stored row, and the stored
rows are unchanged in every case. -/
theorem get_document_progress_spec (db : List SyncProgress) (uid : Nat)
    (document : String)
    (huniq : (db.filter (syncMatch uid document)).length ≤ 1) :
    ((get_document_progress db uid document).1 = Except.error 404 ↔
      db.filter (syncMatch uid document) = []) ∧
    (∀ sp, db.filter (syncMatch uid document) = [sp] →
      (get_document_progress db uid document).1 =
        Except.ok (KosyncProgressResponse.from_sync_progress sp)) ∧
    (get_document_progress db uid document).2 = db := by
  unfold get_document_progress
  cases hfl : db.filter (syncMatch uid document) with
  | nil =>
    refine ⟨by simp [scalarOneOrNone], fun sp hsp => by simp [hfl] at hsp, rfl⟩
  | cons e tail =>
    cases tail with
    | nil =>
      refine ⟨by simp [scalarOneOrNone], fun sp hsp => ?_, rfl⟩
      obtain rfl : e = sp := by simpa using hsp
      rfl
    | cons f t =>
      rw [hfl] at huniq
      simp at huniq

/-- Witness for C5: reading the stored example row succeeds with the stored
values and a missing document answers 404. -/
theorem get_document_progress_spec_witness :
    (get_document_progress [spEx] 2 "b.epub").1 =
      Except.ok (KosyncProgressResponse.from_sync_progress spEx) ∧
    (get_document_progress [spEx] 2 "other.epub").1 = Except.error 404 :=
  ⟨(get_document_progress_spec [spEx] 2 "b.epub" (by decide)).2.1 spEx (by decide),
   (get_document_progress_spec [spEx] 2 "other.epub" (by decide)).1.mpr (by decide)⟩

/-! ## C1 — the upload handler is an upsert keyed on (user_id, document) -/

theorem length_updateFirstMatching (uid : Nat) (doc : String)
    (f : SyncProgress → SyncProgress) (l : List SyncProgress) :
    (updateFirstMatching uid doc f l).length = l.length := by
  induction l with
  | nil => rfl
  | cons r rest ih =>
    simp only [updateFirstMatching]
    split
    · simp
    · simp [ih]

theorem syncMatch_uploadedUpdate (uid : Nat) (doc : String) (pr pct : Rat)
    (dev : Option String) (pg : Option Int) (pos ch : Option String) (now : Nat)
    (e : SyncProgress) (h : syncMatch uid doc e = true) :
    syncMatch uid doc (uploadedUpdate pr pct dev pg pos ch now e) = true := by
  simpa [syncMatch, uploadedUpdate, SyncProgress.update_progress] using h

theorem filter_updateFirstMatching (uid : Nat) (doc : String)
    (f : SyncProgress → SyncProgress) (l : List SyncProgress) (e : SyncProgress)
    (hf : l.filter (syncMatch uid doc) = [e])
    (hmatch : syncMatch uid doc (f e) = true) :
    (updateFirstMatching uid doc f l).filter (syncMatch uid doc) = [f e] := by
  induction l with
  | nil => simp at hf
  | cons r rest ih =>
    by_cases h : syncMatch uid doc r = true
    · rw [List.filter_cons_of_pos h] at hf
      obtain ⟨rfl, hrest⟩ : r = e ∧ rest.filter (syncMatch uid doc) = [] := by
        simpa using hf
      simp only [updateFirstMatching, h, if_true]
      rw [List.filter_cons_of_pos hmatch, hrest]
    · rw [List.filter_cons_of_neg h] at hf
      have hne : (syncMatch uid doc r = true) = False := by simp [h]
      simp only [updateFirstMatching, h, if_false, Bool.false_eq_true, hne]
      rw [List.filter_cons_of_neg h]
      exact ih hf

/-- C1: with at most one stored row per `(user_id, document)` and a valid
submission, the PUT upload handler leaves exactly one matching row carrying
the submitted document, progress and percentage; when no row matched it
appends exactly the new row, and when one row matched it rewrites that row in
place (via `update_progress`) without changing the row count. -/
theorem upload_sync_progress_upsert (db : List SyncProgress) (uid : Nat)
    (document : String) (pr percentage : Rat) (device device_id : Option String)
    (page : Option Int) (pos chapter : Option String) (now newId : Nat)
    (huniq : (db.filter (syncMatch uid document)).length ≤ 1)
    (hpct : 0 ≤ percentage ∧ percentage ≤ 100) :
    (∃ w, ((upload_sync_progress db uid document (some pr) percentage device device_id
        page pos chapter now newId true true).2.filter (syncMatch uid document)) = [w] ∧
      w.user_id = uid ∧ w.document = document ∧ w.progress = pr ∧
      w.percentage = percentage) ∧
    (db.filter (syncMatch uid document) = [] →
      (upload_sync_progress db uid document (some pr) percentage device device_id
        page pos chapter now newId true true).2 =
        db ++ [uploadedNewRow uid document pr percentage device page pos chapter now newId]) ∧
    (∀ e, db.filter (syncMatch uid document) = [e] →
      (upload_sync_progress db uid document (some pr) percentage device device_id
        page pos chapter now newId true true).2 =
        updateFirstMatching uid document
          (uploadedUpdate pr percentage device page pos chapter now) db ∧
      (upload_sync_progress db uid document (some pr) percentage device device_id
        page pos chapter now newId true true).2.length = db.length) := by
  unfold upload_sync_progress
  dsimp only
  rw [if_pos hpct]
  cases hfl : db.filter (syncMatch uid document) with
  | nil =>
    dsimp only [scalarOneOrNone]
    simp only [eq_self_iff_true, if_true]
    refine ⟨⟨uploadedNewRow uid document pr percentage device page pos chapter now newId,
      ?_, rfl, rfl, rfl, rfl⟩, fun _ => trivial, fun e he => by simp at he⟩
    rw [List.filter_append, hfl,
      List.filter_cons_of_pos (by simp [syncMatch, uploadedNewRow]), List.filter_nil]
    rfl
  | cons e tail =>
    cases tail with
    | nil =>
      dsimp only [scalarOneOrNone]
      simp only [eq_self_iff_true, if_true]
      have hmatch : syncMatch uid document e = true := by
        have he : e ∈ db.filter (syncMatch uid document) := by
          rw [hfl]
          exact List.mem_singleton.mpr rfl
        exact (List.mem_filter.mp he).2
      have hupd := syncMatch_uploadedUpdate uid document pr percentage device page pos
        chapter now e hmatch
      have hupd' := hupd
      simp only [syncMatch, Bool.and_eq_true, beq_iff_eq] at hupd'
      refine ⟨⟨uploadedUpdate pr percentage device page pos chapter now e, ?_,
        hupd'.1, hupd'.2, rfl, rfl⟩, fun hnil => by simp at hnil, fun e' he' => ?_⟩
      · exact filter_updateFirstMatching uid document _ db e hfl hupd
      · obtain rfl : e = e' := by simpa using he'
        exact ⟨trivial, length_updateFirstMatching uid document _ db⟩
    | cons f t =>
      rw [hfl] at huniq
      simp at huniq

/-- Witness for C1: uploading over the stored example row updates it in place,
leaving one matching row with the submitted values. -/
theorem upload_sync_progress_upsert_witness :
    ∃ w, ((upload_sync_progress [spEx] 2 "b.epub" (some 2) 75 (some "boox") none
        none none none 200 9 true true).2.filter (syncMatch 2 "b.epub")) = [w] ∧
      w.user_id = 2 ∧ w.document = "b.epub" ∧ w.progress = 2 ∧ w.percentage = 75 :=
  (upload_sync_progress_upsert [spEx] 2 "b.epub" 2 75 (some "boox") none none none
    none 200 9 (by decide) (by norm_num)).1

/-! ## C3 — the kosync authentication endpoint -/

theorem char_toLower_idem (c : Char) : c.toLower.toLower = c.toLower := by
  by_cases h : c.toNat ≥ 65 ∧ c.toNat ≤ 90
  · have h1 : c.toLower = Char.ofNat (c.toNat + 32) := by
      unfold Char.toLower
      rw [if_pos h]
    obtain ⟨k, hk, hc⟩ : ∃ k, k ≤ 25 ∧ c.toNat = 65 + k :=
      ⟨c.toNat - 65, by omega, by omega⟩
    rw [h1, hc]
    interval_cases k <;> decide
  · have h1 : c.toLower = c := by
      unfold Char.toLower
      rw [if_neg h]
    rw [h1]
    exact h1

theorem pyLower_idem (s : String) : pyLower (pyLower s) = pyLower s := by
  show String.mk ((s.data.map Char.toLower).map Char.toLower) = _
  rw [List.map_map]
  have h : ∀ l : List Char, l.map (Char.toLower ∘ Char.toLower) = l.map Char.toLower := by
    intro l
    induction l with
    | nil => rfl
    | cons c t ih => simp [Function.comp, char_toLower_idem, ih]
  rw [h]
  rfl

theorem authenticate_of_filter_nil (users : List User) (username password : String)
    (hfl : users.filter (userMatch (pyLower username)) = []) :
    authenticate_kosync_user users username password = some none := by
  unfold authenticate_kosync_user
  rw [hfl]
  rfl

theorem authenticate_of_filter_singleton (users : List User)
    (username password : String) (u0 : User)
    (hfl : users.filter (userMatch (pyLower username)) = [u0]) :
    authenticate_kosync_user users username password =
      (if !u0.check_password password then some none
       else if !u0.is_active then some none else some (some u0)) := by
  unfold authenticate_kosync_user
  rw [hfl]
  rfl

/-- C3: under the unique-username invariant, the kosync form authentication
endpoint answers 401 exactly when the lowercased username matches no stored
user, or the MD5 of the submitted password differs from the stored hash, or
the matched user is inactive; on success it answers the username with the
stored MD5 hash as userkey. -/
theorem kosync_auth_user_spec (users : List User) (now : Nat)
    (username password : String)
    (huniq : (users.filter (userMatch (pyLower username))).length ≤ 1) :
    ((kosync_auth_user users now username password).1 = Except.error 401 ↔
      (∀ u ∈ users, u.username ≠ pyLower username) ∨
      (∃ u ∈ users, u.username = pyLower username ∧
        (md5_hexdigest password ≠ u.password_hash ∨ u.is_active = false))) ∧
    (∀ u, users.filter (userMatch (pyLower username)) = [u] →
      u.check_password password = true → u.is_active = true →
      (kosync_auth_user users now username password).1 =
        Except.ok ⟨u.username, u.password_hash⟩) := by
  unfold kosync_auth_user login_user UserLogin.validate
  dsimp only
  cases hfl : users.filter (userMatch (pyLower username)) with
  | nil =>
    have ha : authenticate_kosync_user users (pyLower username) password = some none := by
      apply authenticate_of_filter_nil
      rw [pyLower_idem]
      exact hfl
    rw [ha]
    refine ⟨⟨fun _ => Or.inl fun u hu heq => ?_, fun _ => rfl⟩,
      fun u hu => by simp at hu⟩
    have hmem : u ∈ users.filter (userMatch (pyLower username)) :=
      List.mem_filter.mpr ⟨hu, by simp [userMatch, heq]⟩
    rw [hfl] at hmem
    simp at hmem
  | cons u0 tail =>
    cases tail with
    | nil =>
      have ha := authenticate_of_filter_singleton users username password u0
        (by rw [hfl])
      have ha' : authenticate_kosync_user users (pyLower username) password =
          (if !u0.check_password password then some none
           else if !u0.is_active then some none else some (some u0)) := by
        rw [← ha]
        unfold authenticate_kosync_user
        rw [pyLower_idem]
      have hmem0 : u0 ∈ users.filter (userMatch (pyLower username)) := by
        rw [hfl]
        exact List.mem_singleton.mpr rfl
      have hu0users : u0 ∈ users := (List.mem_filter.mp hmem0).1
      have hu0name : u0.username = pyLower username := by
        have := (List.mem_filter.mp hmem0).2
        simpa [userMatch] using this
      rw [ha']
      by_cases hcp : u0.check_password password = true
      · by_cases hact : u0.is_active = true
        · rw [if_neg (by simp [hcp]), if_neg (by simp [hact])]
          have hhash : u0.password_hash = md5_hexdigest password := by
            simpa [User.check_password] using hcp
          refine ⟨⟨fun h => by simp at h, fun h => ?_⟩, fun u hu _ _ => ?_⟩
          · exfalso
            rcases h with hall | ⟨u', hu', hequ', hbad⟩
            · exact hall u0 hu0users hu0name
            · have : u' ∈ users.filter (userMatch (pyLower username)) :=
                List.mem_filter.mpr ⟨hu', by simp [userMatch, hequ']⟩
              rw [hfl] at this
              obtain rfl : u' = u0 := by simpa using this
              rcases hbad with hbad | hbad
              · exact hbad hhash.symm
              · rw [hact] at hbad
                cases hbad
          · obtain rfl : u0 = u := by simpa using hu
            rfl
        · rw [if_neg (by simp [hcp]), if_pos (by simp [Bool.not_eq_true] at hact ⊢; exact hact)]
          refine ⟨⟨fun _ => Or.inr ⟨u0, hu0users, hu0name,
            Or.inr (by simpa [Bool.not_eq_true] using hact)⟩, fun _ => rfl⟩,
            fun u hu hcp' hact' => ?_⟩
          obtain rfl : u0 = u := by simpa using hu
          exact absurd hact' hact
      · rw [if_pos (by simp [Bool.not_eq_true] at hcp ⊢; exact hcp)]
        have hne : md5_hexdigest password ≠ u0.password_hash := by
          intro h
          apply hcp
          simp [User.check_password, h]
        refine ⟨⟨fun _ => Or.inr ⟨u0, hu0users, hu0name, Or.inl hne⟩, fun _ => rfl⟩,
          fun u hu hcp' _ => ?_⟩
        obtain rfl : u0 = u := by simpa using hu
        exact absurd hcp' hcp
    | cons f t =>
      rw [hfl] at huniq
      simp at huniq

/-- Concrete user record for the C3 witness. -/
def userEx : User :=
  { id := 1
    username := "alice"
    password_hash := md5_hexdigest "Secret1"
    email := none
    is_active := true
    is_admin := false
    created_at := 0
    updated_at := 0
    last_login_at := none
    settings := none }

/-- Witness for C3: authenticating the stored user with the right password and
a mixed-case username succeeds with the stored MD5 hash as userkey. -/
theorem kosync_auth_user_spec_witness :
    (kosync_auth_user [userEx] 5 "Alice" "Secret1").1 =
      Except.ok ⟨userEx.username, userEx.password_hash⟩ :=
  (kosync_auth_user_spec [userEx] 5 "Alice" "Secret1" (by decide)).2 userEx
    (by decide) (by decide) rfl

/-! ## C9 — `sanitize_filename` -/

theorem replaceDotDot_eq_dots (rest : List Char) :
    replaceDotDot ('.' :: '.' :: rest) = replaceDotDot rest := by
  rw [replaceDotDot]

theorem replaceDotDot_eq_cons (c' : Char) (rest : List Char)
    (hne : ∀ rest', c' = '.' → rest = '.' :: rest' → False) :
    replaceDotDot (c' :: rest) = c' :: replaceDotDot rest := by
  rw [replaceDotDot]
  exact hne

theorem replaceDotDot_nil : replaceDotDot [] = [] := rfl

theorem mem_replaceDotDot (l : List Char) (c : Char) (h : c ∈ replaceDotDot l) :
    c ∈ l := by
  induction l using replaceDotDot.induct with
  | case1 rest ih =>
    rw [replaceDotDot_eq_dots] at h
    exact List.mem_cons_of_mem _ (List.mem_cons_of_mem _ (ih h))
  | case2 c' rest hne ih =>
    rw [replaceDotDot_eq_cons c' rest hne] at h
    rcases List.mem_cons.mp h with h | h
    · exact h ▸ List.mem_cons_self _ _
    · exact List.mem_cons_of_mem _ (ih h)
  | case3 =>
    rw [replaceDotDot_nil] at h
    cases h

/-- Does the list start with a dot? -/
def headDot : List Char → Bool
  | c :: _ => c == '.'
  | [] => false

theorem headDot_replaceDotDot (l : List Char)
    (h : headDot (replaceDotDot l) = true) : headDot l = true := by
  induction l using replaceDotDot.induct with
  | case1 rest ih => simp [headDot]
  | case2 c' rest hne ih =>
    rw [replaceDotDot_eq_cons c' rest hne] at h
    simpa [headDot] using h
  | case3 =>
    rw [replaceDotDot_nil] at h
    simp [headDot] at h

theorem hasDotDotAux_replaceDotDot (l : List Char) :
    hasDotDotAux (replaceDotDot l) = false := by
  induction l using replaceDotDot.induct with
  | case1 rest ih => rwa [replaceDotDot_eq_dots]
  | case2 c' rest hne ih =>
    rw [replaceDotDot_eq_cons c' rest hne]
    cases hr : replaceDotDot rest with
    | nil => simp [hasDotDotAux]
    | cons d t =>
      have hd : ¬(c' = '.' ∧ d = '.') := by
        rintro ⟨rfl, rfl⟩
        have hh : headDot rest = true :=
          headDot_replaceDotDot rest (by rw [hr]; simp [headDot])
        cases rest with
        | nil => simp [headDot] at hh
        | cons r rr =>
          have hr' : r = '.' := by simpa [headDot] using hh
          exact hne rr rfl (by rw [hr'])
      rw [hr] at ih
      have hb : (c' == '.' && d == '.') = false := by
        by_cases h1 : c' = '.'
        · by_cases h2 : d = '.'
          · exact absurd ⟨h1, h2⟩ hd
          · simp [h2]
        · simp [h1]
      show ((c' == '.' && d == '.') || hasDotDotAux (d :: t)) = false
      rw [hb, ih]
      rfl
  | case3 => rfl

theorem rsplitDot_eq (l n e : List Char) (h : rsplitDot l = some (n, e)) :
    l = n ++ '.' :: e := by
  induction l generalizing n e with
  | nil => cases h
  | cons c rest ih =>
    rw [rsplitDot] at h
    cases hr : rsplitDot rest with
    | some pair =>
      obtain ⟨n', e'⟩ := pair
      rw [hr] at h
      injection h with h'
      cases h'
      rw [List.cons_append, ih n' e hr]
    | none =>
      rw [hr] at h
      by_cases hc : c = '.'
      · rw [if_pos hc] at h
        injection h with h'
        cases h'
        rw [hc]
        rfl
      · rw [if_neg hc] at h
        cases h

theorem removeForbidden_ok (l : List Char) (c : Char) (h : c ∈ removeForbidden l) :
    forbiddenChar c = false := by
  have := (List.mem_filter.mp h).2
  simpa using this

/-- C9 (amended): the sanitized name never contains one of the removed
characters; when the cleaned string (forbidden characters deleted, then `..`
deleted) is at most 255 characters long it is returned unchanged, hence has no
two consecutive dots and length at most 255; and the length bound 255 also
holds whenever the part after the last dot of the cleaned string has at most
4 characters. -/
theorem sanitize_filename_spec (s : String) :
    containsForbidden (sanitize_filename s) = false ∧
    ((replaceDotDot (removeForbidden s.data)).length ≤ 255 →
      sanitize_filename s = String.mk (replaceDotDot (removeForbidden s.data)) ∧
      hasDotDot (sanitize_filename s) = false ∧
      (sanitize_filename s).length ≤ 255) ∧
    (extLenAfterLastDot (replaceDotDot (removeForbidden s.data)) ≤ 4 →
      (sanitize_filename s).length ≤ 255) := by
  have hf : ∀ c ∈ replaceDotDot (removeForbidden s.data), forbiddenChar c = false :=
    fun c hc => removeForbidden_ok s.data c (mem_replaceDotDot _ c hc)
  refine ⟨?_, fun hle => ?_, fun hext => ?_⟩
  · unfold sanitize_filename
    by_cases hlen : 255 < (replaceDotDot (removeForbidden s.data)).length
    · rw [if_pos hlen]
      cases hr : rsplitDot (replaceDotDot (removeForbidden s.data)) with
      | some pair =>
        obtain ⟨name, ext⟩ := pair
        have heq := rsplitDot_eq _ name ext hr
        simp only [containsForbidden, List.any_eq_false]
        intro c hc
        rcases List.mem_append.mp hc with hc | hc
        · intro hcc
          have hmem : c ∈ replaceDotDot (removeForbidden s.data) := by
            rw [heq]
            exact List.mem_append.mpr (Or.inl (List.take_subset _ _ hc))
          rw [hf c hmem] at hcc
          cases hcc
        · have hcm : c ∈ ('.' :: ext : List Char) := by
            by_cases hext0 : ext ≠ []
            · rwa [if_pos hext0] at hc
            · rw [if_neg hext0] at hc
              cases hc
          have hor : c ∈ replaceDotDot (removeForbidden s.data) ∨ c = '.' := by
            rcases List.mem_cons.mp hcm with hc' | hc'
            · exact Or.inr hc'
            · exact Or.inl (heq ▸ List.mem_append.mpr (Or.inr (List.mem_cons_of_mem _ hc')))
          rcases hor with hmem | rfl
          · simp [hf c hmem]
          · decide
      | none =>
        simp only [containsForbidden, List.any_eq_false]
        intro c hc
        have hmem : c ∈ replaceDotDot (removeForbidden s.data) := List.take_subset _ _ hc
        simp [hf c hmem]
    · rw [if_neg hlen]
      simp only [containsForbidden, List.any_eq_false]
      intro c hc
      simp [hf c hc]
  · have hnl : ¬255 < (replaceDotDot (removeForbidden s.data)).length := by omega
    have hres : sanitize_filename s = String.mk (replaceDotDot (removeForbidden s.data)) := by
      unfold sanitize_filename
      rw [if_neg hnl]
    refine ⟨hres, ?_, ?_⟩
    · rw [hres]
      exact hasDotDotAux_replaceDotDot _
    · rw [hres]
      exact hle
  · unfold sanitize_filename
    by_cases hlen : 255 < (replaceDotDot (removeForbidden s.data)).length
    · rw [if_pos hlen]
      cases hr : rsplitDot (replaceDotDot (removeForbidden s.data)) with
      | some pair =>
        obtain ⟨name, ext⟩ := pair
        have hext4 : ext.length ≤ 4 := by
          have : extLenAfterLastDot (replaceDotDot (removeForbidden s.data)) = ext.length := by
            unfold extLenAfterLastDot
            rw [hr]
          omega
        show (name.take 250 ++ (if ext ≠ [] then '.' :: ext else [])).length ≤ 255
        rw [List.length_append, List.length_take]
        by_cases hext0 : ext ≠ []
        · rw [if_pos hext0]
          simp only [List.length_cons]
          omega
        · rw [if_neg hext0]
          simp only [List.length_nil]
          omega
      | none =>
        show ((replaceDotDot (removeForbidden s.data)).take 250).length ≤ 255
        rw [List.length_take]
        omega
    · rw [if_neg hlen]
      show (replaceDotDot (removeForbidden s.data)).length ≤ 255
      omega

/-- Witness for C9 (amended): a name with a forbidden character and a `..`
run is cleaned, keeps no consecutive dots, and stays within 255 characters. -/
theorem sanitize_filename_spec_witness :
    containsForbidden (sanitize_filename "a<..b.txt") = false ∧
    hasDotDot (sanitize_filename "a<..b.txt") = false ∧
    (sanitize_filename "a<..b.txt").length ≤ 255 :=
  ⟨(sanitize_filename_spec "a<..b.txt").1,
   ((sanitize_filename_spec "a<..b.txt").2.1 (by decide)).2.1,
   (sanitize_filename_spec "a<..b.txt").2.2 (by decide)⟩

/-- Concrete 266-character input on which the original claim fails: 249 `a`s,
a dot, 10 `b`s, a dot, 5 `c`s. -/
def c9Input : String :=
  String.mk (List.replicate 249 'a' ++ '.' ::
    (List.replicate 10 'b' ++ '.' :: List.replicate 5 'c'))

/-- Counterexample to C9 as stated: the sanitized result of `c9Input` contains
two consecutive dots and is 256 characters long. -/
theorem sanitize_filename_counterexample :
    hasDotDot (sanitize_filename c9Input) = true ∧
    255 < (sanitize_filename c9Input).length := by decide

/-! ## C6 — `generate_opds_xml` -/

theorem pyJoin_cons (sep a : String) (l : List String) (h : l ≠ []) :
    pyJoin sep (a :: l) = a ++ sep ++ pyJoin sep l := by
  cases l with
  | nil => exact absurd rfl h
  | cons b t => rfl

theorem pyJoin_mem_split (sep x : String) (l : List String) (h : x ∈ l) :
    ∃ p q, pyJoin sep l = p ++ x ++ q := by
  induction l with
  | nil => cases h
  | cons a rest ih =>
    cases rest with
    | nil =>
      obtain rfl : x = a := by simpa using h
      exact ⟨"", "", by simp [pyJoin, String.empty_append, String.append_empty]⟩
    | cons b t =>
      rcases List.mem_cons.mp h with rfl | hx
      · refine ⟨"", sep ++ pyJoin sep (b :: t), ?_⟩
        rw [pyJoin_cons sep x (b :: t) (by simp)]
        simp [String.empty_append, String.append_assoc]
      · obtain ⟨p, q, hpq⟩ := ih hx
        refine ⟨a ++ sep ++ p, q, ?_⟩
        rw [pyJoin_cons sep a (b :: t) (by simp), hpq]
        simp [String.append_assoc]

theorem pyJoin_prefix2 (sep : String) (l : List String) (a b : String)
    (t : List String) (hl : l = a :: b :: t) (ht : t ≠ []) :
    ∃ rest, pyJoin sep l = a ++ sep ++ b ++ sep ++ rest := by
  subst hl
  refine ⟨pyJoin sep t, ?_⟩
  rw [pyJoin_cons sep a (b :: t) (by simp), pyJoin_cons sep b t ht]
  simp only [String.append_assoc]

theorem pyJoin_append_single (sep x : String) (l : List String) :
    ∃ p, pyJoin sep (l ++ [x]) = p ++ x := by
  induction l with
  | nil => exact ⟨"", by simp [pyJoin, String.empty_append]⟩
  | cons a rest ih =>
    obtain ⟨p, hp⟩ := ih
    refine ⟨a ++ sep ++ p, ?_⟩
    rw [List.cons_append, pyJoin_cons sep a (rest ++ [x]) (by simp), hp]
    simp [String.append_assoc]

/-- Is the first list an initial segment of the second? -/
def listLeads : List Char → List Char → Bool
  | [], _ => true
  | _ :: _, [] => false
  | a :: as, b :: bs => a == b && listLeads as bs

theorem listLeads_append (a b : List Char) : listLeads a (a ++ b) = true := by
  induction a with
  | nil => rfl
  | cons c t ih => simp [listLeads, ih]

theorem append_ne_of_leads (p x y : String)
    (h : listLeads p.data y.data = false) : p ++ x ≠ y := by
  intro he
  have hd : p.data ++ x.data = y.data := by
    rw [← String.data_append, he]
  rw [← hd, listLeads_append] at h
  cases h

theorem append2_ne_of_leads (p x q y : String)
    (h : listLeads p.data y.data = false) : p ++ x ++ q ≠ y := by
  rw [String.append_assoc]
  exact append_ne_of_leads p (x ++ q) y h

theorem mem_optStrLine (o : Option String) (f : String → String) (x : String)
    (h : x ∈ optStrLine o f) : ∃ t, x = f t := by
  cases o with
  | none => cases h
  | some s =>
    by_cases hs : s = ""
    · simp [optStrLine, hs] at h
    · rw [optStrLine, if_neg hs] at h
      exact ⟨s, by simpa using h⟩

theorem mem_optIntLine (o : Option Int) (f : Int → String) (x : String)
    (h : x ∈ optIntLine o f) : ∃ t, x = f t := by
  cases o with
  | none => cases h
  | some n => exact ⟨n, by simpa [optIntLine] using h⟩

theorem count_zero_of_ne (l : List String) (h : ∀ s ∈ l, s ≠ "<entry>") :
    l.count "<entry>" = 0 :=
  List.count_eq_zero.mpr (fun hmem => (h _ hmem) rfl)

theorem ne_entry_authorLines (a : OPDSAuthor) : ∀ s ∈ authorLines a, s ≠ "<entry>" := by
  intro s hs
  unfold authorLines at hs
  rcases List.mem_append.mp hs with h1 | h1
  · rcases List.mem_append.mp h1 with h2 | h2
    · rcases List.mem_cons.mp h2 with rfl | h3
      · decide
      · obtain rfl : s = "<name>" ++ a.name ++ "</name>" := by simpa using h3
        exact append2_ne_of_leads "<name>" a.name "</name>" "<entry>" (by decide)
    · obtain ⟨t, rfl⟩ := mem_optStrLine _ _ _ h2
      exact append2_ne_of_leads "<uri>" t "</uri>" "<entry>" (by decide)
  · obtain rfl : s = "</author>" := by simpa using h1
    decide

theorem linkLine_ne_entry (l : OPDSLink) : linkLine l ≠ "<entry>" :=
  append2_ne_of_leads "<link " _ " />" "<entry>" (by decide)

theorem categoryLine_ne_entry (c : OPDSCategory) : categoryLine c ≠ "<entry>" :=
  append2_ne_of_leads "<category " _ " />" "<entry>" (by decide)

theorem count_optStrLine_zero (o : Option String) (f : String → String)
    (h : ∀ t, f t ≠ "<entry>") : (optStrLine o f).count "<entry>" = 0 :=
  count_zero_of_ne _ (fun s hs => by
    obtain ⟨t, rfl⟩ := mem_optStrLine o f s hs
    exact h t)

theorem count_optIntLine_zero (o : Option Int) (f : Int → String)
    (h : ∀ t, f t ≠ "<entry>") : (optIntLine o f).count "<entry>" = 0 :=
  count_zero_of_ne _ (fun s hs => by
    obtain ⟨t, rfl⟩ := mem_optIntLine o f s hs
    exact h t)

theorem count_authors_zero (l : List OPDSAuthor) :
    (l.flatMap authorLines).count "<entry>" = 0 :=
  count_zero_of_ne _ (fun s hs => by
    obtain ⟨a, _, hsa⟩ := List.mem_flatMap.mp hs
    exact ne_entry_authorLines a s hsa)

theorem count_links_zero (l : List OPDSLink) :
    (l.map linkLine).count "<entry>" = 0 :=
  count_zero_of_ne _ (fun s hs => by
    obtain ⟨a, _, rfl⟩ := List.mem_map.mp hs
    exact linkLine_ne_entry a)

theorem count_categories_zero (l : List OPDSCategory) :
    (l.map categoryLine).count "<entry>" = 0 :=
  count_zero_of_ne _ (fun s hs => by
    obtain ⟨a, _, rfl⟩ := List.mem_map.mp hs
    exact categoryLine_ne_entry a)

theorem count_entryLines (e : OPDSEntry) : (entryLines e).count "<entry>" = 1 := by
  unfold entryLines
  rw [List.count_append, List.count_append, List.count_append, List.count_append,
    List.count_append, List.count_append, List.count_append, List.count_append]
  have h4 : (["<entry>", "<id>" ++ e.id ++ "</id>", "<title>" ++ e.title ++ "</title>",
      "<updated>" ++ e.updated ++ "Z</updated>"] : List String).count "<entry>" = 1 := by
    have h1 : "<id>" ++ e.id ++ "</id>" ≠ "<entry>" :=
      append2_ne_of_leads "<id>" e.id "</id>" "<entry>" (by decide)
    have h2 : "<title>" ++ e.title ++ "</title>" ≠ "<entry>" :=
      append2_ne_of_leads "<title>" e.title "</title>" "<entry>" (by decide)
    have h3 : "<updated>" ++ e.updated ++ "Z</updated>" ≠ "<entry>" :=
      append2_ne_of_leads "<updated>" e.updated "Z</updated>" "<entry>" (by decide)
    simp [List.count_cons, h1, h2, h3]
  have hpub : (match e.published with
      | some p => ["<published>" ++ p ++ "Z</published>"]
      | none => ([] : List String)).count "<entry>" = 0 := by
    cases e.published with
    | none => rfl
    | some p =>
      apply count_zero_of_ne
      intro s hs
      obtain rfl : s = "<published>" ++ p ++ "Z</published>" := by simpa using hs
      exact append2_ne_of_leads "<published>" p "Z</published>" "<entry>" (by decide)
  have hsum := count_optStrLine_zero e.summary
    (fun s => "<summary>" ++ s ++ "</summary>")
    (fun t => append2_ne_of_leads "<summary>" t "</summary>" "<entry>" (by decide))
  have hcon := count_optStrLine_zero e.content
    (fun c => "<content type=\"text\">" ++ c ++ "</content>")
    (fun t => append2_ne_of_leads "<content type=\"text\">" t "</content>" "<entry>" (by decide))
  have hrig := count_optStrLine_zero e.rights
    (fun r => "<rights>" ++ r ++ "</rights>")
    (fun t => append2_ne_of_leads "<rights>" t "</rights>" "<entry>" (by decide))
  have hauth := count_authors_zero e.authors
  have hcat := count_categories_zero e.categories
  have hlink := count_links_zero e.links
  have hclose : (["</entry>"] : List String).count "<entry>" = 0 := by decide
  omega

theorem count_entries_flatMap (l : List OPDSEntry) :
    (l.flatMap entryLines).count "<entry>" = l.length := by
  induction l with
  | nil => rfl
  | cons e rest ih =>
    rw [List.flatMap_cons, List.count_append, count_entryLines, ih, List.length_cons]
    omega

theorem count_opdsFeedLines (feed : OPDSFeed) :
    (opdsFeedLines feed).count "<entry>" = feed.entries.length := by
  unfold opdsFeedLines
  rw [List.count_append, List.count_append, List.count_append, List.count_append,
    List.count_append, List.count_append, List.count_append, List.count_append,
    List.count_append, List.count_append]
  have h4 : (["<?xml version=\"1.0\" encoding=\"UTF-8\"?>",
      "<feed xmlns=\"http://www.w3.org/2005/Atom\" xmlns:opds=\"http://opds-spec.org/2010/catalog\">",
      "<id>" ++ feed.id ++ "</id>",
      "<title>" ++ feed.title ++ "</title>"] : List String).count "<entry>" = 0 := by
    apply count_zero_of_ne
    intro s hs
    rcases List.mem_cons.mp hs with rfl | hs
    · decide
    rcases List.mem_cons.mp hs with rfl | hs
    · decide
    rcases List.mem_cons.mp hs with rfl | hs
    · exact append2_ne_of_leads "<id>" feed.id "</id>" "<entry>" (by decide)
    obtain rfl : s = "<title>" ++ feed.title ++ "</title>" := by simpa using hs
    exact append2_ne_of_leads "<title>" feed.title "</title>" "<entry>" (by decide)
  have hsub := count_optStrLine_zero feed.subtitle
    (fun s => "<subtitle>" ++ s ++ "</subtitle>")
    (fun t => append2_ne_of_leads "<subtitle>" t "</subtitle>" "<entry>" (by decide))
  have hupd : (["<updated>" ++ feed.updated ++ "Z</updated>"] : List String).count
      "<entry>" = 0 := by
    apply count_zero_of_ne
    intro s hs
    obtain rfl : s = "<updated>" ++ feed.updated ++ "Z</updated>" := by simpa using hs
    exact append2_ne_of_leads "<updated>" feed.updated "Z</updated>" "<entry>" (by decide)
  have hicon := count_optStrLine_zero feed.icon
    (fun i => "<icon>" ++ i ++ "</icon>")
    (fun t => append2_ne_of_leads "<icon>" t "</icon>" "<entry>" (by decide))
  have hauth := count_authors_zero feed.authors
  have hlink := count_links_zero feed.links
  have hos1 := count_optIntLine_zero feed.total_results _
    (fun t => append2_ne_of_leads
      "<opensearch:totalResults xmlns:opensearch=\"http://a9.com/-/spec/opensearch/1.1/\">"
      (toString t) "</opensearch:totalResults>" "<entry>" (by decide))
  have hos2 := count_optIntLine_zero feed.items_per_page _
    (fun t => append2_ne_of_leads
      "<opensearch:itemsPerPage xmlns:opensearch=\"http://a9.com/-/spec/opensearch/1.1/\">"
      (toString t) "</opensearch:itemsPerPage>" "<entry>" (by decide))
  have hos3 := count_optIntLine_zero feed.start_index _
    (fun t => append2_ne_of_leads
      "<opensearch:startIndex xmlns:opensearch=\"http://a9.com/-/spec/opensearch/1.1/\">"
      (toString t) "</opensearch:startIndex>" "<entry>" (by decide))
  have hent := count_entries_flatMap feed.entries
  have hclose : (["</feed>"] : List String).count "<entry>" = 0 := by decide
  omega

theorem flatMap_sublist {α β : Type} (l : List α) (f g : α → List β)
    (h : ∀ a, (f a).Sublist (g a)) : (l.flatMap f).Sublist (l.flatMap g) := by
  induction l with
  | nil => exact List.Sublist.refl _
  | cons a rest ih =>
    rw [List.flatMap_cons, List.flatMap_cons]
    exact List.Sublist.append (h a) ih

theorem entryPattern_sublist (e : OPDSEntry) :
    (["<entry>", "<id>" ++ e.id ++ "</id>", "<title>" ++ e.title ++ "</title>",
      "<updated>" ++ e.updated ++ "Z</updated>", "</entry>"] : List String).Sublist
      (entryLines e) := by
  show ((["<entry>", "<id>" ++ e.id ++ "</id>", "<title>" ++ e.title ++ "</title>",
    "<updated>" ++ e.updated ++ "Z</updated>"] : List String) ++ ["</entry>"]).Sublist
    (entryLines e)
  unfold entryLines
  refine List.Sublist.append ?_ (List.Sublist.refl _)
  simp only [List.append_assoc]
  exact List.sublist_append_left _ _

/-- C6: `generate_opds_xml` joins the built line list with newlines; the
output starts with the XML declaration followed by the Atom-namespace `<feed>`
element, contains the feed's id, title and updated lines, emits exactly one
`<entry>` line per feed entry and — in order — the id/title/updated lines of
each entry followed by its closing tag, and ends with `</feed>`. -/
theorem generate_opds_xml_spec (feed : OPDSFeed) :
    (∃ rest, generate_opds_xml feed =
      "<?xml version=\"1.0\" encoding=\"UTF-8\"?>" ++ "\n" ++
      "<feed xmlns=\"http://www.w3.org/2005/Atom\" xmlns:opds=\"http://opds-spec.org/2010/catalog\">" ++
      "\n" ++ rest) ∧
    (∃ p q, generate_opds_xml feed = p ++ ("<id>" ++ feed.id ++ "</id>") ++ q) ∧
    (∃ p q, generate_opds_xml feed = p ++ ("<title>" ++ feed.title ++ "</title>") ++ q) ∧
    (∃ p q, generate_opds_xml feed =
      p ++ ("<updated>" ++ feed.updated ++ "Z</updated>") ++ q) ∧
    (opdsFeedLines feed).count "<entry>" = feed.entries.length ∧
    (feed.entries.flatMap (fun e => ["<entry>", "<id>" ++ e.id ++ "</id>",
      "<title>" ++ e.title ++ "</title>",
      "<updated>" ++ e.updated ++ "Z</updated>", "</entry>"])).Sublist
      (opdsFeedLines feed) ∧
    (∃ p, generate_opds_xml feed = p ++ "</feed>") ∧
    generate_opds_xml feed = pyJoin "\n" (opdsFeedLines feed) := by
  refine ⟨?_, ?_, ?_, ?_, count_opdsFeedLines feed, ?_, ?_, rfl⟩
  · show ∃ rest, pyJoin "\n" (opdsFeedLines feed) = _
    refine pyJoin_prefix2 "\n" (opdsFeedLines feed) _ _ _ rfl (by simp)
  · exact pyJoin_mem_split _ _ _ (by simp [opdsFeedLines])
  · exact pyJoin_mem_split _ _ _ (by simp [opdsFeedLines])
  · exact pyJoin_mem_split _ _ _ (by simp [opdsFeedLines])
  · have h1 := flatMap_sublist feed.entries _ _ entryPattern_sublist
    unfold opdsFeedLines
    exact (h1.trans (List.sublist_append_right _ _)).trans (List.sublist_append_left _ _)
  · show ∃ p, pyJoin "\n" (opdsFeedLines feed) = p ++ "</feed>"
    unfold opdsFeedLines
    exact pyJoin_append_single "\n" "</feed>" _

/-! ## C7 — `generate_propfind_response` -/

theorem fsLookup_mkdirP_self (fs : FS) (p : String) :
    (fsLookup (mkdirP fs p) p).isSome = true := by
  unfold mkdirP
  cases h : fsLookup fs p with
  | some e => simp [h]
  | none => simp [fsLookup, List.find?_cons]

theorem fsLookup_mkdirP_ne (fs : FS) (p q : String) (h : p ≠ q) :
    fsLookup (mkdirP fs q) p = fsLookup fs p := by
  unfold mkdirP
  cases hq : fsLookup fs q with
  | some e => rfl
  | none =>
    show fsLookup ((q, _) :: fs) p = fsLookup fs p
    unfold fsLookup
    rw [List.find?_cons]
    have : ((q, (⟨true, [], 0, "", ""⟩ : FSEntry)).1 == p) = false := by
      simpa using fun hqp => h hqp.symm
    rw [this]

theorem root_ne_stats (root : String) : root ≠ root ++ "/statistics" := by
  intro h
  have hl := congrArg String.length h
  rw [String.length_append] at hl
  have : ("/statistics" : String).length = 11 := by decide
  omega

theorem ensure_root_isSome (fs : FS) (root : String) :
    (fsLookup (ensure_webdav_dirs fs root) root).isSome = true := by
  unfold ensure_webdav_dirs
  rw [fsLookup_mkdirP_ne _ root (root ++ "/statistics") (root_ne_stats root)]
  exact fsLookup_mkdirP_self fs root

theorem resolved_lookup_isSome (fs : FS) (root : String)
    (unquoteF : String → String) (path : String) :
    (fsLookup (ensure_webdav_dirs fs root)
      (resolvedPath fs root unquoteF path)).isSome = true := by
  unfold resolvedPath
  by_cases h : (fsLookup (ensure_webdav_dirs fs root)
      (joinPath root (unquoteF (lstripSlash path)))).isSome = true
  · simpa [h] using h
  · simp only [h]
    simp only [Bool.false_eq_true, if_false]
    exact ensure_root_isSome fs root

theorem statusTexts_responseFor (href : String) (kids : List XElem) :
    (responseFor href kids).statusTexts = ["HTTP/1.1 200 OK"] := rfl

theorem propTags_responseFor (href : String) (kids : List XElem) :
    (responseFor href kids).propTags = kids.map XElem.tag := by
  show ([] : List String) ++ (kids.map XElem.tag ++ [] ++ []) = kids.map XElem.tag
  simp

theorem hasCollection_responseFor (href : String) (kids : List XElem) :
    (responseFor href kids).hasCollection =
      kids.any (fun rt => rt.tag == "D:resourcetype" &&
        rt.children.any (fun c => c.tag == "D:collection")) := by
  simp [XElem.hasCollection, responseFor, XElem.tag, XElem.children, List.any_cons]

theorem collection_propChildrenFull (fi : FileInfo) :
    (propChildrenFull fi).any (fun rt => rt.tag == "D:resourcetype" &&
        rt.children.any (fun c => c.tag == "D:collection")) = fi.is_directory := by
  cases h : fi.is_directory <;> simp [propChildrenFull, h, XElem.tag, XElem.children]

theorem contentlength_propChildrenFull (fi : FileInfo) :
    ("D:getcontentlength" ∈ (propChildrenFull fi).map XElem.tag) ↔
      fi.is_directory = false := by
  cases h : fi.is_directory <;> simp [propChildrenFull, h, XElem.tag]

/-- C7: the PROPFIND generator always answers a `DAV:` multistatus whose first
child is a `D:response` for the requested resource with status
`HTTP/1.1 200 OK`; that response carries a `D:collection` resourcetype marker
exactly when the resolved path is a directory and a `D:getcontentlength`
property exactly when it is not; and one additional child `D:response` (each
also with status 200) appears per entry of the resolved directory exactly when
the depth is `"1"` and the resolved path is an existing directory. -/
theorem generate_propfind_response_spec (fs : FS) (root : String)
    (quoteF unquoteF : String → String) (path depth : String) :
    (generate_propfind_response fs root quoteF unquoteF path depth).tag =
      "D:multistatus" ∧
    (generate_propfind_response fs root quoteF unquoteF path depth).attrs =
      [("xmlns:D", "DAV:")] ∧
    (∃ r rest,
      (generate_propfind_response fs root quoteF unquoteF path depth).children =
        r :: rest ∧
      r.tag = "D:response" ∧
      r.statusTexts = ["HTTP/1.1 200 OK"] ∧
      (r.hasCollection = true ↔
        isDirAt (ensure_webdav_dirs fs root)
          (resolvedPath fs root unquoteF path) = true) ∧
      (("D:getcontentlength" ∈ r.propTags) ↔
        isDirAt (ensure_webdav_dirs fs root)
          (resolvedPath fs root unquoteF path) = false) ∧
      rest.length = (if depth = "1" ∧ isDirAt (ensure_webdav_dirs fs root)
            (resolvedPath fs root unquoteF path) = true
          then (childNamesAt (ensure_webdav_dirs fs root)
            (resolvedPath fs root unquoteF path)).length
          else 0) ∧
      (∀ c ∈ rest, c.tag = "D:response" ∧
        c.statusTexts = ["HTTP/1.1 200 OK"])) := by
  obtain ⟨e, he⟩ : ∃ e, fsLookup (ensure_webdav_dirs fs root)
      (resolvedPath fs root unquoteF path) = some e := by
    have h := resolved_lookup_isSome fs root unquoteF path
    cases hl : fsLookup (ensure_webdav_dirs fs root)
        (resolvedPath fs root unquoteF path) with
    | some e => exact ⟨e, rfl⟩
    | none => rw [hl] at h; cases h
  obtain ⟨i, hfi, hdir⟩ : ∃ i, get_file_info (ensure_webdav_dirs fs root)
      (resolvedPath fs root unquoteF path) = some i ∧
      i.is_directory = e.isDirectory := by
    unfold get_file_info
    rw [he]
    exact ⟨_, rfl, rfl⟩
  have hisdir : isDirAt (ensure_webdav_dirs fs root)
      (resolvedPath fs root unquoteF path) = e.isDirectory := by
    unfold isDirAt
    rw [he]
  have hnames : childNamesAt (ensure_webdav_dirs fs root)
      (resolvedPath fs root unquoteF path) = e.childNames := by
    unfold childNamesAt
    rw [he]
  unfold generate_propfind_response
  dsimp only
  rw [hfi, he]
  dsimp only
  refine ⟨rfl, rfl, _, _, rfl, rfl, statusTexts_responseFor _ _, ?_, ?_, ?_, ?_⟩
  · rw [hasCollection_responseFor, collection_propChildrenFull, hdir, hisdir]
  · rw [propTags_responseFor, hisdir, ← hdir]
    exact contentlength_propChildrenFull i
  · rw [hisdir, hnames, ← hdir]
    by_cases h : depth = "1" ∧ i.is_directory = true
    · rw [if_pos h, if_pos h, List.length_map]
    · rw [if_neg h, if_neg h]
      rfl
  · intro c hc
    by_cases h : depth = "1" ∧ i.is_directory = true
    · rw [if_pos h] at hc
      obtain ⟨name, _, rfl⟩ := List.mem_map.mp hc
      exact ⟨rfl, statusTexts_responseFor _ _⟩
    · rw [if_neg h] at hc
      cases hc

end Kompanion
